import Mathlib

/-!
Verification development for the `Pipeline` wrapper of a GStreamer binding
(`src/pipeline.rs`).  The wrapper code under `src/` is embedded directly;
behaviour that lives outside `src/` (the C library's pipeline semantics, the
textual parser, `bin.rs`, `bus.rs`, `error.rs`) is modelled from the
specification, with each such definition marked `Modelled from the spec:`.
-/

namespace GstRs

/-- The NUL character, the one byte a Rust `CString` may not contain. -/
def nulChar : Char := Char.ofNat 0

/-- Embedding of Rust `CString::new`: fails (returns `none`) exactly when the
input contains a NUL byte; the wrapper code calls `.unwrap()` on the result,
which panics in the failing case. -/
def cstring_new (s : String) : Option String :=
  if s.data.contains nulChar then none else some s

/-- Outcome of running a Rust function that may panic: either a panic
(`CString::new(..).unwrap()` on a NUL-containing string) or a returned value. -/
inductive RustOutcome (α : Type) where
  | panic : RustOutcome α
  | value : α → RustOutcome α
deriving DecidableEq

/-- A GLib `GError` as surfaced by the external parser: an error domain, a
numeric code and a human-readable message. -/
structure GError where
  domain : Nat
  code : Nat
  message : String
deriving DecidableEq

/-- The binding's own structured error type (`error.rs`, not under `src/`):
domain, numeric code and message, as the spec describes. -/
structure Error where
  domain : Nat
  code : Nat
  message : String
deriving DecidableEq

/-- Modelled from the spec: `error.rs` is not under `src/`.  `Error::new`
builds a structured error from an explicit domain, code and message, as used
at `pipeline.rs` line 62 with `Error::new(0,0,"Couldn't create bin")`. -/
def Error.new (domain code : Nat) (message : String) : Error :=
  ⟨domain, code, message⟩

/-- Modelled from the spec: `error.rs` is not under `src/`.  Converting the
external parser's `GError` keeps its domain, numeric code and message, the
three fields the spec says a parse error carries. -/
def Error.new_from_g_error (e : GError) : Error :=
  ⟨e.domain, e.code, e.message⟩

/-- Split a character list at every occurrence of the link character. -/
def splitBang : List Char → List (List Char)
  | [] => [[]]
  | c :: rest =>
    match splitBang rest with
    | [] => [[]]
    | t :: ts => if c = '!' then [] :: t :: ts else (c :: t) :: ts

/-- Drop surrounding spaces of a token. -/
def trimSpaces (cs : List Char) : List Char :=
  ((cs.dropWhile (fun c => c = ' ')).reverse.dropWhile (fun c => c = ' ')).reverse

/-- Element names the modelled parser knows. -/
def knownElements : List (List Char) :=
  ["src".data, "sink".data, "fakesrc".data, "fakesink".data, "identity".data]

/-- The element tokens of a textual description: the pieces between the
link characters, with surrounding spaces removed. -/
def gstTokens (s : String) : List (List Char) :=
  (splitBang s.data).map trimSpaces

/-- Modelled from the spec: the textual mini-language parser
(`gst_parse_launch`) is an external collaborator, not under `src/`.  Per the
spec it consumes element-and-link syntax and on a malformed description or an
unknown element type returns a structured error with a domain, a non-zero
numeric code and a human-readable message; on success it yields a graph
handle. -/
def gst_parse_launch (s : String) : Except GError Unit :=
  if (gstTokens s).any List.isEmpty then
    .error ⟨1, 1, "syntax error"⟩
  else if (gstTokens s).any (fun t => ¬ knownElements.contains t) then
    .error ⟨1, 2, "no such element"⟩
  else
    .ok ()

/-- A pipeline state, as in the GStreamer state machine. -/
inductive GstState where
  | null : GstState
  | ready : GstState
  | paused : GstState
  | playing : GstState
deriving DecidableEq

/-- A clock, identified by which provider it came from. -/
structure Clock where
  id : Nat
deriving DecidableEq

/-- The default system clock used when no element provides one. -/
def systemClock : Clock := ⟨0⟩

/-- An element of the graph as the clock-selection algorithm sees it:
liveness (reports NO_PREROLL), sink-ness, and an optionally provided clock. -/
structure Elem where
  name : String
  live : Bool
  isSink : Bool
  providedClock : Option Clock
deriving DecidableEq

/-- A bus message (originating element plus payload kind). -/
structure Message where
  src : String
  kind : String
deriving DecidableEq

/-- The unset sentinel for clock times (`GST_CLOCK_TIME_NONE`, u64 max). -/
def GST_CLOCK_TIME_NONE : Nat := 2 ^ 64 - 1

/-- Modelled from the spec: the clock-selection algorithm of the C library
(documented at `pipeline.rs` lines 12-26, implementation not under `src/`).
Walk the element graph in upstream-to-downstream order; if any live element
provides a clock, select the most upstream such clock; otherwise select the
most downstream sink-provided clock; otherwise fall back to the system
clock. -/
def select_clock (elems : List Elem) : Clock :=
  match elems.find? (fun e => e.live && e.providedClock.isSome) with
  | some e => e.providedClock.getD systemClock
  | none =>
    match elems.reverse.find? (fun e => e.isSink && e.providedClock.isSome) with
    | some e => e.providedClock.getD systemClock
    | none => systemClock

/-- Modelled from the spec: the pipeline state of the C library (documented at
`pipeline.rs` lines 12-26, implementation not under `src/`).  `elems` is the
graph in upstream-to-downstream order; `fixedClock` is the clock pinned by
`use_clock`; `pendingMessages` is the owned bus's queue. -/
structure Pipeline where
  state : GstState
  elems : List Elem
  fixedClock : Option Clock
  selectedClock : Clock
  accumulated_running_time : Nat
  base_time : Int
  delay : Nat
  auto_flush_bus : Bool
  pendingMessages : List Message
deriving DecidableEq

/-- A freshly constructed pipeline: NULL state, no pinned clock, zero
accumulated running time, zero delay, auto-flush enabled (the default), empty
bus. -/
def Pipeline.initial : Pipeline :=
  { state := .null
    elems := []
    fixedClock := none
    selectedClock := systemClock
    accumulated_running_time := 0
    base_time := 0
    delay := 0
    auto_flush_bus := true
    pendingMessages := [] }

/-- Operations the controlling context can request of a pipeline.
`set_state` carries the clock time sampled at the transition. -/
inductive Op where
  | set_state : GstState → Nat → Op
  | flushing_seek : Op
  | use_clock : Clock → Op
  | auto_clock : Op
  | set_delay : Nat → Op
  | set_auto_flush_bus : Bool → Op
  | post : Message → Op
deriving DecidableEq

/-- Modelled from the spec: one pipeline operation (documented at
`pipeline.rs` lines 12-26, implementation not under `src/`).
PAUSED to PLAYING selects a clock (the pinned one if `use_clock` is in force,
otherwise by `select_clock`) and folds delay into the base time; PLAYING to
PAUSED samples the running time; a transition to READY resets the accumulated
running time, as does a flushing seek; a transition to NULL drains the bus
exactly when `auto_flush_bus` is set. -/
def Pipeline.step (p : Pipeline) (op : Op) : Pipeline :=
  match op with
  | .set_state target t =>
    match target with
    | .playing =>
      if p.state = .paused then
        let c := match p.fixedClock with
          | some c => c
          | none => select_clock p.elems
        { p with state := .playing
                 selectedClock := c
                 base_time := (t : Int) - p.accumulated_running_time - p.delay }
      else { p with state := .playing }
    | .paused =>
      if p.state = .playing then
        { p with state := .paused
                 accumulated_running_time := ((t : Int) - p.base_time).toNat }
      else { p with state := .paused }
    | .ready => { p with state := .ready, accumulated_running_time := 0 }
    | .null =>
      { p with state := .null
               pendingMessages := if p.auto_flush_bus then [] else p.pendingMessages }
  | .flushing_seek => { p with accumulated_running_time := 0 }
  | .use_clock c => { p with fixedClock := some c }
  | .auto_clock => { p with fixedClock := none }
  | .set_delay d => { p with delay := d }
  | .set_auto_flush_bus b => { p with auto_flush_bus := b }
  | .post m => { p with pendingMessages := p.pendingMessages ++ [m] }

/-- Run a sequence of operations left to right. -/
def Pipeline.run (p : Pipeline) (ops : List Op) : Pipeline :=
  ops.foldl Pipeline.step p

/-- Modelled from the spec: `Bin::new_from_gst_bin` lives in `bin.rs`, not
under `src/`; its outcome is taken as an explicit parameter of the embedded
constructors. -/
def Bin.new_from_gst_bin (wrapOk : Bool) : Option Unit :=
  if wrapOk then some () else none

/-- Embedding of `Pipeline::new` (`pipeline.rs` lines 36-50): `CString::new
(name).unwrap()` (panics on a NUL byte), then `gst_pipeline_new` (its success
is the `allocOk` parameter; `none` on allocation failure), then
`Bin::new_from_gst_bin` (its success is the `binWrapOk` parameter; `none` on
wrap failure). -/
def Pipeline.new (name : String) (allocOk binWrapOk : Bool) :
    RustOutcome (Option Pipeline) :=
  match cstring_new name with
  | none => .panic
  | some _ =>
    if allocOk then
      match Bin.new_from_gst_bin binWrapOk with
      | some _ => .value (some Pipeline.initial)
      | none => .value none
    else
      .value none

/-- Embedding of `Pipeline::new_from_str` (`pipeline.rs` lines 53-68):
`CString::new(string).unwrap()` (panics on a NUL byte), then
`gst_parse_launch`; if the parser reports no error, wrap the result as a Bin
(`binWrapOk` parameter), yielding `Ok` on success and
`Err(Error::new(0,0,"Couldn't create bin"))` on wrap failure; if the parser
reports an error, yield `Err(Error::new_from_g_error(error))`. -/
def Pipeline.new_from_str (string : String) (binWrapOk : Bool) :
    RustOutcome (Except Error Pipeline) :=
  match cstring_new string with
  | none => .panic
  | some _ =>
    match gst_parse_launch string with
    | .ok _ =>
      if binWrapOk then .value (.ok Pipeline.initial)
      else .value (.error (Error.new 0 0 "Couldn't create bin"))
    | .error e => .value (.error (Error.new_from_g_error e))

/-- A bus handle as returned over the FFI boundary: the queue it exposes plus
whether the raw pointer was non-null. -/
structure BusPtr where
  messages : List Message
  nonNull : Bool

/-- The binding's `Bus` wrapper (its queue of messages). -/
structure Bus where
  messages : List Message
deriving DecidableEq

/-- Modelled from the spec: `Bus::new` lives in `bus.rs`, not under `src/`;
it wraps a non-null bus pointer and yields nothing for a null one. -/
def Bus.new (ptr : BusPtr) : Option Bus :=
  if ptr.nonNull then some ⟨ptr.messages⟩ else none

/-- Modelled from the spec: `gst_pipeline_get_bus` is a C-library call, not
under `src/`.  Per the spec every Pipeline owns a Bus, so the call returns a
non-null handle to that bus. -/
def gst_pipeline_get_bus (p : Pipeline) : BusPtr :=
  ⟨p.pendingMessages, true⟩

/-- Embedding of `Pipeline::bus` (`pipeline.rs` lines 79-83):
`Bus::new(gst_pipeline_get_bus(..))`. -/
def Pipeline.bus (p : Pipeline) : Option Bus :=
  Bus.new (gst_pipeline_get_bus p)

/-- Embedding of `Pipeline::set_delay` (`pipeline.rs` lines 99-103); the
stored delay is the pipeline's `delay` field, read back by
`Pipeline::delay` (`pipeline.rs` lines 86-90), which in this embedding is the
field accessor itself. -/
def Pipeline.set_delay (p : Pipeline) (d : Nat) : Pipeline :=
  { p with delay := d }


/-- A demonstration pipeline with auto-flush disabled and one pending
message, used to exercise the NULL transition with `auto_flush_bus` off. -/
def keepMsgsDemo : Pipeline :=
  { Pipeline.initial with auto_flush_bus := false,
                          pendingMessages := [⟨"e", "eos"⟩] }

/-- A demonstration pipeline sitting in the PAUSED state. -/
def pausedDemo : Pipeline :=
  { Pipeline.initial with state := .paused }

/-- Does an operation pin or unpin the clock (`use_clock` / `auto_clock`)? -/
def Op.touchesClockPin : Op → Bool
  | .use_clock _ => true
  | .auto_clock => true
  | _ => false

/-- Does an operation try to store the unset sentinel as the delay? -/
def Op.setsSentinelDelay : Op → Bool
  | .set_delay d => d == GST_CLOCK_TIME_NONE
  | _ => false

theorem step_fixedClock (p : Pipeline) (op : Op) (h : op.touchesClockPin = false) :
    (p.step op).fixedClock = p.fixedClock := by
  cases op with
  | set_state target t =>
    cases target <;> simp only [Pipeline.step] <;> first | rfl | (split <;> rfl)
  | flushing_seek => rfl
  | use_clock c => simp [Op.touchesClockPin] at h
  | auto_clock => simp [Op.touchesClockPin] at h
  | set_delay d => rfl
  | set_auto_flush_bus b => rfl
  | post m => rfl

theorem run_fixedClock (p : Pipeline) (ops : List Op)
    (h : ∀ op ∈ ops, op.touchesClockPin = false) :
    (p.run ops).fixedClock = p.fixedClock := by
  induction ops generalizing p with
  | nil => rfl
  | cons op rest ih =>
    have h1 : op.touchesClockPin = false := h op (List.mem_cons_self op rest)
    have h2 : ∀ o ∈ rest, o.touchesClockPin = false :=
      fun o ho => h o (List.mem_cons_of_mem op ho)
    show ((p.step op).run rest).fixedClock = p.fixedClock
    rw [ih (p.step op) h2, step_fixedClock p op h1]

theorem step_delay_not_sentinel (p : Pipeline) (op : Op)
    (hp : p.delay ≠ GST_CLOCK_TIME_NONE) (hop : op.setsSentinelDelay = false) :
    (p.step op).delay ≠ GST_CLOCK_TIME_NONE := by
  cases op with
  | set_state target t =>
    cases target <;> simp only [Pipeline.step] <;>
      first | exact hp | (split <;> exact hp)
  | flushing_seek => exact hp
  | use_clock c => exact hp
  | auto_clock => exact hp
  | set_delay d =>
    simp only [Op.setsSentinelDelay, beq_iff_eq] at hop
    simpa [Pipeline.step] using hop
  | set_auto_flush_bus b => exact hp
  | post m => exact hp

/-! The claim theorems. -/

/-- C9: for every input string containing an interior NUL byte,
`Pipeline::new` and `Pipeline::new_from_str` panic (via
`CString::new(..).unwrap()`) instead of returning `None` or `Err`. -/
theorem nul_byte_panics (s : String) (allocOk binWrapOk : Bool)
    (h : nulChar ∈ s.data) :
    Pipeline.new s allocOk binWrapOk = .panic ∧
    Pipeline.new_from_str s binWrapOk = .panic := by
  constructor <;> simp [Pipeline.new, Pipeline.new_from_str, cstring_new, h]

theorem nul_byte_panics_witness :
    nulChar ∈ (String.mk ['a', Char.ofNat 0, 'b']).data ∧
    (Pipeline.new (String.mk ['a', Char.ofNat 0, 'b']) true true = .panic ∧
     Pipeline.new_from_str (String.mk ['a', Char.ofNat 0, 'b']) true = .panic) :=
  ⟨by decide, nul_byte_panics (String.mk ['a', Char.ofNat 0, 'b']) true true (by decide)⟩

/-- C10: when the textual description parses without error but the parsed
object cannot be wrapped as a Bin, `new_from_str` returns
`Err(Error::new(0,0,"Couldn't create bin"))` — an error whose domain and code
are both zero. -/
theorem new_from_str_bin_wrap_failure (s : String)
    (hnul : nulChar ∉ s.data)
    (hok : gst_parse_launch s = .ok ()) :
    Pipeline.new_from_str s false =
      .value (.error (Error.new 0 0 "Couldn't create bin")) ∧
    (Error.new 0 0 "Couldn't create bin").domain = 0 ∧
    (Error.new 0 0 "Couldn't create bin").code = 0 := by
  refine ⟨?_, rfl, rfl⟩
  simp [Pipeline.new_from_str, cstring_new, hnul, hok]

theorem new_from_str_bin_wrap_failure_witness :
    (nulChar ∉ ("src ! sink" : String).data ∧
     gst_parse_launch "src ! sink" = .ok ()) ∧
    Pipeline.new_from_str "src ! sink" false =
      .value (.error (Error.new 0 0 "Couldn't create bin")) :=
  ⟨⟨by decide, by rfl⟩,
   (new_from_str_bin_wrap_failure "src ! sink" (by decide) (by rfl)).1⟩

/-- C6: `Pipeline::new` yields a pipeline whenever the underlying allocation
and the Bin wrapping succeed, and yields `None` exactly when one of them
fails. -/
theorem new_yields_pipeline_unless_alloc_fails (name : String)
    (allocOk binWrapOk : Bool)
    (hnul : nulChar ∉ name.data) :
    (allocOk = true → binWrapOk = true →
      Pipeline.new name allocOk binWrapOk = .value (some Pipeline.initial)) ∧
    (Pipeline.new name allocOk binWrapOk = .value none ↔
      (allocOk = false ∨ binWrapOk = false)) := by
  cases allocOk <;> cases binWrapOk <;>
    simp [Pipeline.new, Bin.new_from_gst_bin, cstring_new, hnul]

theorem new_yields_pipeline_unless_alloc_fails_witness :
    nulChar ∉ ("p" : String).data ∧
    Pipeline.new "p" true true = .value (some Pipeline.initial) ∧
    (Pipeline.new "p" false true = .value none ↔
      (false = false ∨ true = false)) :=
  ⟨by decide,
   (new_yields_pipeline_unless_alloc_fails "p" true true (by decide)).1 rfl rfl,
   (new_yields_pipeline_unless_alloc_fails "p" false true (by decide)).2⟩

/-- C7: for every pipeline, the `bus()` operation returns the pipeline's Bus
(there is no absent outcome: the result is always `some`). -/
theorem bus_always_returns_the_bus (p : Pipeline) :
    ∃ b : Bus, p.bus = some b ∧ b.messages = p.pendingMessages :=
  ⟨⟨p.pendingMessages⟩, rfl, rfl⟩

/-- C1: whenever the parser rejects a description (malformed or unknown
element), `new_from_str` returns a structured error carrying the parser's
domain, code and message, the code is non-zero, no pipeline is returned, and
in particular `"src ! ! sink"` yields such an error. -/
theorem new_from_str_parse_error (s : String) (binWrapOk : Bool) (e : GError)
    (hnul : nulChar ∉ s.data)
    (herr : gst_parse_launch s = .error e) :
    Pipeline.new_from_str s binWrapOk =
      .value (.error ⟨e.domain, e.code, e.message⟩) ∧
    e.code ≠ 0 ∧
    (∀ pl : Pipeline, Pipeline.new_from_str s binWrapOk ≠ .value (.ok pl)) ∧
    Pipeline.new_from_str "src ! ! sink" true =
      .value (.error ⟨1, 1, "syntax error"⟩) := by
  have hres : Pipeline.new_from_str s binWrapOk =
      .value (.error ⟨e.domain, e.code, e.message⟩) := by
    simp [Pipeline.new_from_str, cstring_new, hnul, herr, Error.new_from_g_error]
  have hcode : e.code ≠ 0 := by
    unfold gst_parse_launch at herr
    split at herr
    · cases herr
      decide
    · split at herr
      · cases herr
        decide
      · cases herr
  refine ⟨hres, hcode, ?_, by rfl⟩
  intro pl hcontra
  rw [hres] at hcontra
  simp at hcontra

theorem new_from_str_parse_error_witness :
    (nulChar ∉ ("src ! ! sink" : String).data ∧
     gst_parse_launch "src ! ! sink" = .error ⟨1, 1, "syntax error"⟩) ∧
    (Pipeline.new_from_str "src ! ! sink" true =
       .value (.error ⟨1, 1, "syntax error"⟩) ∧
     (1 : Nat) ≠ 0) :=
  ⟨⟨by decide, by rfl⟩,
   (new_from_str_parse_error "src ! ! sink" true ⟨1, 1, "syntax error"⟩
      (by decide) (by rfl)).1,
   (new_from_str_parse_error "src ! ! sink" true ⟨1, 1, "syntax error"⟩
      (by decide) (by rfl)).2.1⟩

/-- C3: for every pipeline, a transition to READY or a flushing seek resets
the accumulated running time to 0, whatever its prior value. -/
theorem ready_or_flush_resets_running_time (p : Pipeline) (t : Nat) :
    (p.step (.set_state .ready t)).accumulated_running_time = 0 ∧
    (p.step .flushing_seek).accumulated_running_time = 0 :=
  ⟨rfl, rfl⟩

/-- C5: on a transition to NULL, the pending bus messages are drained exactly
when `auto_flush_bus` is set (the default on a fresh pipeline); with it
unset every previously posted message remains readable. -/
theorem null_transition_bus_flush (p : Pipeline) (t : Nat) (m : Message) :
    (p.auto_flush_bus = true →
      (p.step (.set_state .null t)).pendingMessages = []) ∧
    (p.auto_flush_bus = false →
      (p.step (.set_state .null t)).pendingMessages = p.pendingMessages ∧
      (m ∈ p.pendingMessages →
        m ∈ (p.step (.set_state .null t)).pendingMessages)) ∧
    Pipeline.initial.auto_flush_bus = true := by
  refine ⟨fun h => ?_, fun h => ?_, rfl⟩
  · simp [Pipeline.step, h]
  · simp [Pipeline.step, h]

theorem null_transition_bus_flush_witness :
    Pipeline.initial.auto_flush_bus = true ∧
    (Pipeline.initial.step (.set_state .null 0)).pendingMessages = [] ∧
    (keepMsgsDemo.step (.set_state .null 0)).pendingMessages
      = keepMsgsDemo.pendingMessages :=
  ⟨rfl,
   (null_transition_bus_flush Pipeline.initial 0 ⟨"e", "eos"⟩).1 rfl,
   ((null_transition_bus_flush keepMsgsDemo 0 ⟨"e", "eos"⟩).2.1 rfl).1⟩

/-- C8: a fresh pipeline's delay is not the unset sentinel, and after any
sequence of operations whose `set_delay` calls all respect the precondition
(argument distinct from `GST_CLOCK_TIME_NONE`), the stored delay is still not
the sentinel; `set_delay` with a non-sentinel argument stores that value. -/
theorem delay_never_sentinel (p : Pipeline) (ops : List Op)
    (hp : p.delay ≠ GST_CLOCK_TIME_NONE)
    (hops : ∀ op ∈ ops, op.setsSentinelDelay = false) :
    Pipeline.initial.delay ≠ GST_CLOCK_TIME_NONE ∧
    (p.run ops).delay ≠ GST_CLOCK_TIME_NONE ∧
    (∀ d, d ≠ GST_CLOCK_TIME_NONE →
      (p.set_delay d).delay = d ∧ (p.set_delay d).delay ≠ GST_CLOCK_TIME_NONE) := by
  refine ⟨by decide, ?_, fun d hd => ⟨rfl, hd⟩⟩
  induction ops generalizing p with
  | nil => exact hp
  | cons op rest ih =>
    have h1 : op.setsSentinelDelay = false := hops op (List.mem_cons_self op rest)
    have h2 : ∀ o ∈ rest, o.setsSentinelDelay = false :=
      fun o ho => hops o (List.mem_cons_of_mem op ho)
    show ((p.step op).run rest).delay ≠ GST_CLOCK_TIME_NONE
    exact ih (p.step op) (step_delay_not_sentinel p op hp h1) h2

theorem delay_never_sentinel_witness :
    (Pipeline.initial.delay ≠ GST_CLOCK_TIME_NONE ∧
     (∀ op ∈ [Op.set_delay 100000000, Op.set_state .paused 0],
       op.setsSentinelDelay = false)) ∧
    (Pipeline.initial.run [Op.set_delay 100000000,
       Op.set_state .paused 0]).delay ≠ GST_CLOCK_TIME_NONE :=
  ⟨⟨by decide, by decide⟩,
   (delay_never_sentinel Pipeline.initial
      [Op.set_delay 100000000, Op.set_state .paused 0]
      (by decide) (by decide)).2.1⟩

/-- C2: when automatic selection runs on PAUSED→PLAYING and the graph holds a
(unique) live clock-providing source together with a non-live clock-providing
sink, the selected clock is the live source's clock. -/
theorem clock_selection_prefers_live_source
    (elems : List Elem) (s k : Elem) (cs ck : Clock)
    (hs : s ∈ elems) (hk : k ∈ elems)
    (hlive : s.live = true) (hsc : s.providedClock = some cs)
    (hknl : k.live = false) (hksink : k.isSink = true)
    (hkc : k.providedClock = some ck)
    (huniq : ∀ e ∈ elems, e.live = true → e.providedClock.isSome = true → e = s) :
    select_clock elems = cs := by
  have hpred : (elems.find? (fun e => e.live && e.providedClock.isSome)).isSome := by
    rw [List.find?_isSome]
    exact ⟨s, hs, by simp [hlive, hsc]⟩
  obtain ⟨e, he⟩ := Option.isSome_iff_exists.mp hpred
  have hmem := List.mem_of_find?_eq_some he
  have hpe := List.find?_some he
  simp only [Bool.and_eq_true] at hpe
  have heq : e = s := huniq e hmem hpe.1 hpe.2
  subst heq
  unfold select_clock
  rw [he]
  show e.providedClock.getD systemClock = cs
  rw [hsc]
  rfl

theorem clock_selection_prefers_live_source_witness :
    ((⟨"livesrc", true, false, some ⟨1⟩⟩ : Elem) ∈
       [(⟨"livesrc", true, false, some ⟨1⟩⟩ : Elem),
        ⟨"audiosink", false, true, some ⟨2⟩⟩] ∧
     (⟨"audiosink", false, true, some ⟨2⟩⟩ : Elem) ∈
       [(⟨"livesrc", true, false, some ⟨1⟩⟩ : Elem),
        ⟨"audiosink", false, true, some ⟨2⟩⟩]) ∧
    select_clock
      [⟨"livesrc", true, false, some ⟨1⟩⟩,
       ⟨"audiosink", false, true, some ⟨2⟩⟩] = ⟨1⟩ :=
  ⟨⟨List.mem_cons_self _ _, List.mem_cons_of_mem _ (List.mem_cons_self _ _)⟩,
   clock_selection_prefers_live_source
     [⟨"livesrc", true, false, some ⟨1⟩⟩, ⟨"audiosink", false, true, some ⟨2⟩⟩]
     ⟨"livesrc", true, false, some ⟨1⟩⟩ ⟨"audiosink", false, true, some ⟨2⟩⟩
     ⟨1⟩ ⟨2⟩
     (List.mem_cons_self _ _) (List.mem_cons_of_mem _ (List.mem_cons_self _ _))
     rfl rfl rfl rfl rfl (by decide)⟩

/-- C4: after `use_clock c`, any sequence of operations that neither pins nor
unpins the clock leaves `c` in force, and a PAUSED→PLAYING transition then
selects `c`; `auto_clock` unpins the clock, and the next PAUSED→PLAYING
transition runs the automatic selection algorithm. -/
theorem use_clock_pins_until_auto_clock (p : Pipeline) (c : Clock)
    (ops : List Op) (t : Nat)
    (hops : ∀ op ∈ ops, op.touchesClockPin = false)
    (hpaused : ((p.step (.use_clock c)).run ops).state = .paused) :
    ((p.step (.use_clock c)).run ops).fixedClock = some c ∧
    (((p.step (.use_clock c)).run ops).step
       (.set_state .playing t)).selectedClock = c ∧
    (((p.step (.use_clock c)).run ops).step .auto_clock).fixedClock = none ∧
    ((((p.step (.use_clock c)).run ops).step .auto_clock).step
       (.set_state .playing t)).selectedClock
      = select_clock ((p.step (.use_clock c)).run ops).elems := by
  set q := (p.step (.use_clock c)).run ops with hq
  have hfix : q.fixedClock = some c := by
    rw [hq, run_fixedClock _ _ hops]
    rfl
  refine ⟨hfix, ?_, rfl, ?_⟩
  · simp [Pipeline.step, hpaused, hfix]
  · simp [Pipeline.step, hpaused]

theorem use_clock_pins_until_auto_clock_witness :
    ((∀ op ∈ ([] : List Op), op.touchesClockPin = false) ∧
     ((pausedDemo.step (.use_clock ⟨7⟩)).run []).state = .paused) ∧
    (((pausedDemo.step (.use_clock ⟨7⟩)).run []).fixedClock = some ⟨7⟩ ∧
     (((pausedDemo.step (.use_clock ⟨7⟩)).run []).step
        (.set_state .playing 0)).selectedClock = ⟨7⟩) :=
  ⟨⟨by decide, by rfl⟩,
   (use_clock_pins_until_auto_clock pausedDemo ⟨7⟩ [] 0 (by decide) (by rfl)).1,
   (use_clock_pins_until_auto_clock pausedDemo ⟨7⟩ [] 0 (by decide) (by rfl)).2.1⟩

end GstRs
